import Mathlib

/-!
Shallow embedding of the edunity API layer: the response envelope
(`packages/helpers/api-helpers.ts`), the ad-hoc response wrapper
(`apps/api/utils/response-wraper.ts`), the request dispatcher and CRUD
handler factory (`apps/api/app/_common/crudFactory.ts`), and the two
top-level route handlers (`apps/api/app/route.ts`,
`apps/api/app/university/route.ts`).

External collaborators (the Supabase query builder and the Zod schemas)
are modelled as oracles: each handler takes the backend's reply for the
one query it can issue, and returns the list of backend calls it actually
made together with the HTTP response, so that "the backend is never
invoked" is the statement that the call list is empty.

JavaScript numbers reachable in this code are either integers or the NaN
produced by `parseInt` on a non-numeric string (division by zero can also
yield an infinity in the `totalPages` field); they are modelled by `JsNum`.
-/

/-- JSON-ish values: the bodies built by `NextResponse.json`. -/
inductive Json where
  | null : Json
  | bool : Bool → Json
  | num : Int → Json
  | str : String → Json
  | arr : List Json → Json
  | obj : List (String × Json) → Json

/-- JavaScript numbers as they occur in this code: an integer, NaN, or an
infinity (the latter only from `Math.ceil(x / 0)` in `totalPages`). -/
inductive JsNum where
  | int : Int → JsNum
  | nan : JsNum
  | posInf : JsNum
  | negInf : JsNum
deriving DecidableEq

/-- JS `+` restricted to the values reachable here. -/
def jsAdd : JsNum → JsNum → JsNum
  | .int a, .int b => .int (a + b)
  | .posInf, .negInf => .nan
  | .negInf, .posInf => .nan
  | .nan, _ => .nan
  | _, .nan => .nan
  | .posInf, _ => .posInf
  | _, .posInf => .posInf
  | .negInf, _ => .negInf
  | _, .negInf => .negInf

/-- JS unary minus. -/
def jsNeg : JsNum → JsNum
  | .int a => .int (-a)
  | .nan => .nan
  | .posInf => .negInf
  | .negInf => .posInf

/-- JS `-`. -/
def jsSub (a b : JsNum) : JsNum := jsAdd a (jsNeg b)

/-- JS `*` restricted to the values reachable here. -/
def jsMul : JsNum → JsNum → JsNum
  | .int a, .int b => .int (a * b)
  | .nan, _ => .nan
  | _, .nan => .nan
  | .posInf, .int b => if b = 0 then .nan else if b > 0 then .posInf else .negInf
  | .int a, .posInf => if a = 0 then .nan else if a > 0 then .posInf else .negInf
  | .negInf, .int b => if b = 0 then .nan else if b > 0 then .negInf else .posInf
  | .int a, .negInf => if a = 0 then .nan else if a > 0 then .negInf else .posInf
  | .posInf, .posInf => .posInf
  | .negInf, .negInf => .posInf
  | .posInf, .negInf => .negInf
  | .negInf, .posInf => .negInf

/-- Integer ceiling division: `jsCeilDiv a b = ⌈a / b⌉` for `b ≠ 0`. -/
def jsCeilDiv (a b : Int) : Int := -(Int.fdiv (-a) b)

/-- `Math.ceil(total / s)` on an integer `total` and a JS number `s`. -/
def mathCeilDiv (total : Int) : JsNum → JsNum
  | .nan => .nan
  | .posInf => .int 0
  | .negInf => .int 0
  | .int s =>
    if s = 0 then
      if total = 0 then .nan else if total > 0 then .posInf else .negInf
    else .int (jsCeilDiv total s)

/-- Digit-prefix accumulator of JS `parseInt(·, 10)`: consumes leading
decimal digits, keeping `none` when no digit has been seen. -/
def parseIntDigits : List Char → Option Nat → Option Nat
  | [], acc => acc
  | c :: cs, acc =>
    if c.isDigit then
      parseIntDigits cs (some ((acc.getD 0) * 10 + (c.toNat - 48)))
    else acc

/-- JS `parseInt(s, 10)`: skip leading whitespace, read an optional sign,
then a maximal run of decimal digits; no digits means NaN. -/
def jsParseInt (s : String) : JsNum :=
  let cs := s.toList.dropWhile Char.isWhitespace
  match cs with
  | '-' :: rest =>
    match parseIntDigits rest none with
    | some n => .int (-(n : Int))
    | none => .nan
  | '+' :: rest =>
    match parseIntDigits rest none with
    | some n => .int (n : Int)
    | none => .nan
  | rest =>
    match parseIntDigits rest none with
    | some n => .int (n : Int)
    | none => .nan

/-- `parseInt(searchParams.get(k) || dflt, 10)`: a missing parameter is
`null` and an empty string is falsy, so both fall back to `dflt`. -/
def parsePageParam (raw : Option String) (dflt : String) : JsNum :=
  jsParseInt (match raw with
    | none => dflt
    | some s => if s = "" then dflt else s)

/-- The wire-level error codes of `ErrorCode` in `api-helpers.ts`. -/
inductive ErrorCode where
  | UNKNOWN_ERROR
  | VALIDATION_ERROR
  | NOT_FOUND
  | UNAUTHORIZED
  | FORBIDDEN
  | BAD_REQUEST
  | SUPABASE_NOT_INITIALIZED
  | SUPABASE_QUERY_ERROR
  | SUPABASE_CONNECTION_ERROR
  | DUPLICATE_ENTRY
  | CONFLICT
  | INTERNAL_SERVER_ERROR
  | SERVICE_UNAVAILABLE
deriving DecidableEq

/-- The string value each `ErrorCode` member serializes to. -/
def ErrorCode.toWire : ErrorCode → String
  | .UNKNOWN_ERROR => "UNKNOWN_ERROR"
  | .VALIDATION_ERROR => "VALIDATION_ERROR"
  | .NOT_FOUND => "NOT_FOUND"
  | .UNAUTHORIZED => "UNAUTHORIZED"
  | .FORBIDDEN => "FORBIDDEN"
  | .BAD_REQUEST => "BAD_REQUEST"
  | .SUPABASE_NOT_INITIALIZED => "SUPABASE_NOT_INITIALIZED"
  | .SUPABASE_QUERY_ERROR => "SUPABASE_QUERY_ERROR"
  | .SUPABASE_CONNECTION_ERROR => "SUPABASE_CONNECTION_ERROR"
  | .DUPLICATE_ENTRY => "DUPLICATE_ENTRY"
  | .CONFLICT => "CONFLICT"
  | .INTERNAL_SERVER_ERROR => "INTERNAL_SERVER_ERROR"
  | .SERVICE_UNAVAILABLE => "SERVICE_UNAVAILABLE"

/-- An HTTP response: status code plus serialized JSON body. -/
structure Response where
  status : Nat
  body : Json

/-- `NextResponse.json` serializes NaN and the infinities as `null`. -/
def JsNum.toJson : JsNum → Json
  | .int n => .num n
  | _ => .null

/-- The pagination metadata block of a success envelope. -/
structure PaginationMeta where
  page : JsNum
  pageSize : JsNum
  total : JsNum
  totalPages : JsNum

/-- Serialization of `PaginationMeta`, in JS key-insertion order. -/
def PaginationMeta.toJson (m : PaginationMeta) : Json :=
  .obj [("page", m.page.toJson), ("pageSize", m.pageSize.toJson),
        ("total", m.total.toJson), ("totalPages", m.totalPages.toJson)]

/-- `ApiResponse.success(data, status, pagination?)` from `api-helpers.ts`:
body `{ success: true, data, ...(pagination ? { pagination } : \x7b\x7d) }`. -/
def ApiResponse.success (data : Json) (status : Nat)
    (pagination : Option PaginationMeta) : Response :=
  { status := status
    body := .obj ([("success", .bool true), ("data", data)] ++
      (match pagination with
        | some p => [("pagination", p.toJson)]
        | none => [])) }

/-- `ApiResponse.error(code, message, status, details)` from
`api-helpers.ts`: body `{ success: false, error: { code, message, details } }`. -/
def ApiResponse.error (code : ErrorCode) (message : String) (status : Nat)
    (details : Json) : Response :=
  { status := status
    body := .obj [("success", .bool false),
      ("error", .obj [("code", .str code.toWire),
                      ("message", .str message),
                      ("details", details)])] }

/-- `successResponse(data, statusCode)` from `response-wraper.ts`:
body `{ success: true, status: statusCode, data }`. -/
def successResponse (data : Json) (statusCode : Nat) : Response :=
  { status := statusCode
    body := .obj [("success", .bool true), ("status", .num statusCode),
                  ("data", data)] }

/-- `errorResponse(error, statusCode)` from `response-wraper.ts`:
body `{ success: false, status: statusCode, error }`. -/
def errorResponse (error : Json) (statusCode : Nat) : Response :=
  { status := statusCode
    body := .obj [("success", .bool false), ("status", .num statusCode),
                  ("error", error)] }

/-- A backend (Supabase/PostgREST) error object: `{ code, message, details }`. -/
structure DbErr where
  code : String
  message : String
  details : Json

/-- Result of `.from(t).select(q, { count: "exact" }).range(from, to)`. -/
structure SelectResult where
  data : List Json
  error : Option DbErr
  count : Option Int

/-- Result of `.from(t).insert(row).select().single()`. -/
structure InsertResult where
  data : Option Json
  error : Option DbErr

/-- Result of `.from(t).update(fields).eq("id", id).select().single()`. -/
structure UpdateResult where
  data : Option Json
  error : Option DbErr

/-- Result of `.from(t).delete({ count: "exact" }).eq("id", id)`. -/
structure DeleteResult where
  error : Option DbErr
  count : Option Int

/-- One call issued to the backend query builder, with its arguments. -/
inductive DbCall where
  | select (table : String) (query : String) (fromIdx toIdx : JsNum)
  | insert (table : String) (row : Json)
  | update (table : String) (fields : List (String × Json)) (id : Json)
  | delete (table : String) (id : Json)

/-- What a handler body does under the dispatcher: return a response, or
throw with a message; either way the backend calls made so far are kept. -/
inductive HandlerOut where
  | ret (calls : List DbCall) (resp : Response)
  | thrown (calls : List DbCall) (msg : String)

/-- Outcome of `await createServerSideClient()` in the dispatcher: a usable
client, a falsy value, or a thrown fault. -/
inductive AcquireResult where
  | ok : AcquireResult
  | falsy : AcquireResult
  | thrown : String → AcquireResult

/-- `handleRequest` from `crudFactory.ts`: acquire the client, reject a
falsy client with `SUPABASE_NOT_INITIALIZED`, run the handler, and map any
thrown fault to the fixed `INTERNAL_SERVER_ERROR` envelope. -/
def handleRequest (acq : AcquireResult) (handler : HandlerOut) :
    List DbCall × Response :=
  match acq with
  | .thrown _ =>
    ([], ApiResponse.error .INTERNAL_SERVER_ERROR
      "An unexpected error occurred." 500 (.obj []))
  | .falsy =>
    ([], ApiResponse.error .SUPABASE_NOT_INITIALIZED
      "Supabase client not initialized" 500 (.obj []))
  | .ok =>
    match handler with
    | .thrown calls _ =>
      (calls, ApiResponse.error .INTERNAL_SERVER_ERROR
        "An unexpected error occurred." 500 (.obj []))
    | .ret calls r => (calls, r)

/-- The `CrudHandlersConfig` record: schemas are oracles returning either
validated data or the already-flattened validation error. -/
structure CrudConfig where
  tableName : String
  resourceName : Option String
  createSchema : Json → Except Json Json
  updateSchema : Json → Except Json (List (String × Json))
  selectQuery : Option String
  afterGet : Option (List Json → List Json)
  beforeInsert : Option (Json → Json)

/-- `resourceName = tableName` default in the factory's destructuring. -/
def CrudConfig.resName (cfg : CrudConfig) : String :=
  cfg.resourceName.getD cfg.tableName

/-- Template-literal rendering of the `id` value interpolated into
`NOT_FOUND` messages. -/
def jsDisplay : Json → String
  | .null => "null"
  | .bool true => "true"
  | .bool false => "false"
  | .num n => toString n
  | .str s => s
  | .arr _ => ""
  | .obj _ => "[object Object]"

/-- The GET handler body: parse `page`/`pageSize` with fallbacks, compute
the range, query with exact count, and wrap the outcome. The backend is
the oracle `db`, keyed by the requested range. -/
def getHandler (cfg : CrudConfig) (pageRaw pageSizeRaw : Option String)
    (db : JsNum → JsNum → SelectResult) : HandlerOut :=
  let page := parsePageParam pageRaw "1"
  let pageSize := parsePageParam pageSizeRaw "10"
  let fromIdx := jsMul (jsSub page (.int 1)) pageSize
  let toIdx := jsSub (jsAdd fromIdx pageSize) (.int 1)
  let r := db fromIdx toIdx
  let call := DbCall.select cfg.tableName (cfg.selectQuery.getD "*") fromIdx toIdx
  match r.error with
  | some e =>
    .ret [call] (ApiResponse.error .SUPABASE_QUERY_ERROR e.message 500 (.obj []))
  | none =>
    let processed := match cfg.afterGet with
      | some f => f r.data
      | none => r.data
    .ret [call] (ApiResponse.success (.arr processed) 200 (some
      { page := page
        pageSize := .int r.data.length
        total := .int (r.count.getD 0)
        totalPages := mathCeilDiv (r.count.getD 0) pageSize }))

/-- The POST handler body: `req.json()` (its fault propagates), validate
against the create schema, apply `beforeInsert`, insert, and translate the
backend outcome (`23505` to `CONFLICT`, any other error to
`SUPABASE_QUERY_ERROR`). -/
def postHandler (cfg : CrudConfig) (body : Except String Json)
    (ins : InsertResult) : HandlerOut :=
  match body with
  | .error m => .thrown [] m
  | .ok b =>
    match cfg.createSchema b with
    | .error flat =>
      .ret [] (ApiResponse.error .VALIDATION_ERROR "Invalid input." 422 flat)
    | .ok vdata =>
      let dataToInsert := match cfg.beforeInsert with
        | some f => f vdata
        | none => vdata
      let call := DbCall.insert cfg.tableName dataToInsert
      match ins.error with
      | some e =>
        if e.code = "23505" then
          .ret [call] (ApiResponse.error .CONFLICT
            (cfg.resName ++ " already exists.") 409
            (.obj [("details", e.details)]))
        else
          .ret [call] (ApiResponse.error .SUPABASE_QUERY_ERROR e.message 500
            (.obj []))
      | none => .ret [call] (ApiResponse.success (ins.data.getD .null) 201 none)

/-- The PUT handler body: `req.json()` wrapped in a local try/catch mapping
a parse fault to `BAD_REQUEST`; validate; split `id` from the rest; reject
an empty remainder; update and translate the backend outcome. -/
def putHandler (cfg : CrudConfig) (body : Except String Json)
    (upd : UpdateResult) : HandlerOut :=
  match body with
  | .error _ =>
    .ret [] (ApiResponse.error .BAD_REQUEST
      "Invalid JSON format in request body." 400 (.obj []))
  | .ok b =>
    match cfg.updateSchema b with
    | .error flat =>
      .ret [] (ApiResponse.error .VALIDATION_ERROR "Invalid input." 422 flat)
    | .ok fields =>
      let idVal := (fields.lookup "id").getD .null
      let updateData := fields.filter (fun kv => kv.1 != "id")
      if updateData.isEmpty then
        .ret [] (ApiResponse.error .BAD_REQUEST "No fields to update provided."
          400 (.obj []))
      else
        let call := DbCall.update cfg.tableName updateData idVal
        match upd.error with
        | some e =>
          .ret [call] (ApiResponse.error .SUPABASE_QUERY_ERROR e.message 500
            (.obj []))
        | none =>
          match upd.data with
          | none =>
            .ret [call] (ApiResponse.error .NOT_FOUND
              (cfg.resName ++ " with ID " ++ jsDisplay idVal ++ " not found.")
              404 (.obj []))
          | some row => .ret [call] (ApiResponse.success row 200 none)

/-- `const { id } = await req.json()`: destructuring `null` throws; on any
other value the `id` property is read (`undefined`, modelled `null`, when
absent). -/
def getIdField : Json → Except String Json
  | .null => .error "TypeError: cannot destructure"
  | .obj fs => .ok ((fs.lookup "id").getD .null)
  | _ => .ok .null

/-- The DELETE handler body: `req.json()` (fault propagates), require a
truthy string `id`, delete with exact count, and translate the outcome
(`count === 0` to `NOT_FOUND`). -/
def deleteHandler (cfg : CrudConfig) (body : Except String Json)
    (del : DeleteResult) : HandlerOut :=
  match body with
  | .error m => .thrown [] m
  | .ok b =>
    match getIdField b with
    | .error m => .thrown [] m
    | .ok idVal =>
      match idVal with
      | .str s =>
        if s = "" then
          .ret [] (ApiResponse.error .BAD_REQUEST
            "A valid 'id' is required for deletion." 400 (.obj []))
        else
          let call := DbCall.delete cfg.tableName (.str s)
          match del.error with
          | some e =>
            .ret [call] (ApiResponse.error .SUPABASE_QUERY_ERROR e.message 500
              (.obj []))
          | none =>
            if del.count = some 0 then
              .ret [call] (ApiResponse.error .NOT_FOUND
                (cfg.resName ++ " with ID " ++ s ++ " not found.") 404
                (.obj []))
            else
              .ret [call] (ApiResponse.success
                (.obj [("message", .str (cfg.resName ++ " deleted successfully."))])
                200 none)
      | _ =>
        .ret [] (ApiResponse.error .BAD_REQUEST
          "A valid 'id' is required for deletion." 400 (.obj []))

/-- The factory's exported GET route: the handler body run under
`handleRequest`. -/
def GET (cfg : CrudConfig) (acq : AcquireResult)
    (pageRaw pageSizeRaw : Option String)
    (db : JsNum → JsNum → SelectResult) : List DbCall × Response :=
  handleRequest acq (getHandler cfg pageRaw pageSizeRaw db)

/-- The factory's exported POST route. -/
def POST (cfg : CrudConfig) (acq : AcquireResult) (body : Except String Json)
    (ins : InsertResult) : List DbCall × Response :=
  handleRequest acq (postHandler cfg body ins)

/-- The factory's exported PUT route. -/
def PUT (cfg : CrudConfig) (acq : AcquireResult) (body : Except String Json)
    (upd : UpdateResult) : List DbCall × Response :=
  handleRequest acq (putHandler cfg body upd)

/-- The factory's exported DELETE route. -/
def DELETE (cfg : CrudConfig) (acq : AcquireResult) (body : Except String Json)
    (del : DeleteResult) : List DbCall × Response :=
  handleRequest acq (deleteHandler cfg body del)

/-- JS `x || dflt` on strings: an empty message is falsy. -/
def jsOrStr (x dflt : String) : String := if x = "" then dflt else x

/-- `app/university/route.ts` GET: its own try/catch whose catch leaks
`e.message` into the `INTERNAL_SERVER_ERROR` envelope; on success the
pagination block is fixed at page 1 with `total = count ?? data.length`. -/
def universityGET (acq : AcquireResult) (sel : Except String SelectResult) :
    Response :=
  match acq with
  | .thrown m =>
    ApiResponse.error .INTERNAL_SERVER_ERROR
      (jsOrStr m "Unexpected error occurred") 500 (.obj [])
  | .falsy =>
    ApiResponse.error .SUPABASE_NOT_INITIALIZED
      "Supabase client not initialized" 500 (.obj [])
  | .ok =>
    match sel with
    | .error m =>
      ApiResponse.error .INTERNAL_SERVER_ERROR
        (jsOrStr m "Unexpected error occurred") 500 (.obj [])
    | .ok r =>
      match r.error with
      | some e =>
        ApiResponse.error .SUPABASE_QUERY_ERROR e.message 500 (.obj [])
      | none =>
        ApiResponse.success (.arr r.data) 200 (some
          { page := .int 1
            pageSize := .int r.data.length
            total := .int (r.count.getD r.data.length)
            totalPages := .int 1 })

/-- `app/route.ts` GET: builds the welcome payload via `successResponse`;
its catch returns `errorResponse(error.message || "Internal Server Error", 500)`.
`acq` is the (non-awaited) `createServerSideClient()` call, the only
fallible step. -/
def rootGET (acq : Except String Unit) (now : String) : Response :=
  match acq with
  | .error m => errorResponse (.str (jsOrStr m "Internal Server Error")) 500
  | .ok _ =>
    successResponse
      (.obj [("message", .str "Welcome to Edunity API"),
             ("timestamp", .str now)]) 200

/-- The spec's two envelope shapes: `\x7b success: true, data, pagination? \x7d`
with the four-field pagination block, or
`\x7b success: false, error: \x7b code, message, details \x7d \x7d`. -/
def isEnvelopeShape : Json → Bool
  | .obj [("success", .bool true), ("data", _)] => true
  | .obj [("success", .bool true), ("data", _),
          ("pagination", .obj [("page", _), ("pageSize", _),
                               ("total", _), ("totalPages", _)])] => true
  | .obj [("success", .bool false),
          ("error", .obj [("code", .str _), ("message", .str _),
                          ("details", _)])] => true
  | _ => false

/-- A concrete configuration in the shape of `app/course/route.ts`: create
schema accepting exactly an object with a string `name`, update schema
accepting any object that carries an `id` key. -/
def courseConfig : CrudConfig where
  tableName := "course"
  resourceName := none
  createSchema := fun j =>
    match j with
    | .obj [("name", .str s)] => .ok (.obj [("name", .str s)])
    | _ => .error (.obj [("formErrors", .arr []), ("fieldErrors", .obj [])])
  updateSchema := fun j =>
    match j with
    | .obj fs =>
      if (fs.lookup "id").isSome then .ok fs
      else .error (.obj [("formErrors", .arr [.str "id required"]),
                         ("fieldErrors", .obj [])])
    | _ => .error (.obj [("formErrors", .arr [.str "expected object"]),
                         ("fieldErrors", .obj [])])
  selectQuery := some "*"
  afterGet := none
  beforeInsert := none

/-- A concrete backend with one stored row and an exact count of 7,
answering every range the same way. -/
def dbSeven : JsNum → JsNum → SelectResult :=
  fun _ _ => { data := [.obj [("id", .str "c1")]], error := none, count := some 7 }

/-- For a positive divisor, `jsCeilDiv` is the rational ceiling of the
quotient, i.e. JS `Math.ceil(a / s)`. -/
theorem jsCeilDiv_eq_ceil (a s : Int) (hs : 0 < s) :
    jsCeilDiv a s = Int.ceil ((a : ℚ) / (s : ℚ)) := by
  have hs0 : (0 : Int) ≤ s := le_of_lt hs
  have h1 : ((s.toNat : ℤ)) = s := Int.toNat_of_nonneg hs0
  have hcast : ((s : ℚ)) = ((s.toNat : ℕ) : ℚ) := by
    exact_mod_cast h1.symm
  rw [jsCeilDiv, Int.fdiv_eq_ediv _ hs0]
  have hceil : Int.ceil ((a : ℚ) / (s : ℚ)) = -Int.floor (-((a : ℚ) / (s : ℚ))) := by
    rw [Int.floor_neg, neg_neg]
  rw [hceil]
  have hneg : -((a : ℚ) / (s : ℚ)) = (((-a : ℤ) : ℚ)) / (((s.toNat : ℕ)) : ℚ) := by
    rw [← hcast]
    push_cast
    ring
  rw [hneg, Rat.floor_intCast_div_natCast, h1]

/-- Claim C2: a POST whose parsed body fails the create schema returns the
failure envelope with code VALIDATION_ERROR, HTTP 422, and the flattened
validation errors as details, and the backend insert is never invoked (the
call trace is empty). -/
theorem post_validation_failure (cfg : CrudConfig) (b flat : Json)
    (ins : InsertResult) (hv : cfg.createSchema b = .error flat) :
    POST cfg .ok (.ok b) ins =
      ([], ApiResponse.error .VALIDATION_ERROR "Invalid input." 422 flat) := by
  simp [POST, handleRequest, postHandler, hv]

/-- Claim C2 witness: the course create schema rejects a non-object body
and the insert trace is empty. -/
theorem post_validation_failure_witness :
    courseConfig.createSchema (.str "oops") =
      .error (.obj [("formErrors", .arr []), ("fieldErrors", .obj [])]) ∧
    POST courseConfig .ok (.ok (.str "oops")) { data := none, error := none } =
      ([], ApiResponse.error .VALIDATION_ERROR "Invalid input." 422
        (.obj [("formErrors", .arr []), ("fieldErrors", .obj [])])) :=
  ⟨rfl, post_validation_failure courseConfig (.str "oops") _ _ rfl⟩

/-- Claim C3: a PUT whose validated body has no fields left once the `id`
key is removed returns the failure envelope with code BAD_REQUEST and HTTP
400, and the backend update is never invoked (the call trace is empty). -/
theorem put_empty_update (cfg : CrudConfig) (b : Json)
    (fields : List (String × Json)) (upd : UpdateResult)
    (hv : cfg.updateSchema b = .ok fields)
    (hempty : fields.filter (fun kv => kv.1 != "id") = []) :
    PUT cfg .ok (.ok b) upd =
      ([], ApiResponse.error .BAD_REQUEST "No fields to update provided." 400
        (.obj [])) := by
  simp [PUT, handleRequest, putHandler, hv, hempty]

/-- Claim C3 witness: an update body carrying only `id` is rejected with
400 and an empty call trace. -/
theorem put_empty_update_witness :
    courseConfig.updateSchema (.obj [("id", .str "c1")]) =
      .ok [("id", .str "c1")] ∧
    PUT courseConfig .ok (.ok (.obj [("id", .str "c1")]))
        { data := none, error := none } =
      ([], ApiResponse.error .BAD_REQUEST "No fields to update provided." 400
        (.obj [])) :=
  ⟨rfl, put_empty_update courseConfig (.obj [("id", .str "c1")])
    [("id", .str "c1")] _ rfl rfl⟩

/-- Claim C5: the dispatcher maps a falsy client to the
SUPABASE_NOT_INITIALIZED envelope with HTTP 500, and maps a fault thrown
during client acquisition or during the handler to the INTERNAL_SERVER_ERROR
envelope with HTTP 500 whose message is the fixed string
"An unexpected error occurred.", independent of the fault's message. -/
theorem handleRequest_guard (h : HandlerOut) :
    handleRequest .falsy h =
      ([], ApiResponse.error .SUPABASE_NOT_INITIALIZED
        "Supabase client not initialized" 500 (.obj [])) ∧
    (∀ m : String, handleRequest (.thrown m) h =
      ([], ApiResponse.error .INTERNAL_SERVER_ERROR
        "An unexpected error occurred." 500 (.obj []))) ∧
    (∀ (calls : List DbCall) (m : String),
      handleRequest .ok (.thrown calls m) =
        (calls, ApiResponse.error .INTERNAL_SERVER_ERROR
          "An unexpected error occurred." 500 (.obj []))) := by
  refine ⟨rfl, fun m => rfl, fun calls m => rfl⟩

/-- Claim C10: a malformed-JSON POST body propagates out of the handler
and is mapped by the dispatcher to INTERNAL_SERVER_ERROR with HTTP 500,
while the same malformed body on PUT is caught locally and yields
BAD_REQUEST with HTTP 400. -/
theorem post_put_body_parse_asymmetry (cfg : CrudConfig) (m : String)
    (ins : InsertResult) (upd : UpdateResult) :
    POST cfg .ok (.error m) ins =
      ([], ApiResponse.error .INTERNAL_SERVER_ERROR
        "An unexpected error occurred." 500 (.obj [])) ∧
    PUT cfg .ok (.error m) upd =
      ([], ApiResponse.error .BAD_REQUEST
        "Invalid JSON format in request body." 400 (.obj [])) :=
  ⟨rfl, rfl⟩

/-- Claim C4: when the insert fails with backend code "23505" the POST
returns CONFLICT with HTTP 409 and details wrapping the backend's conflict
details; any other insert fault returns SUPABASE_QUERY_ERROR with HTTP 500;
and no CONFLICT response equals a SUPABASE_QUERY_ERROR response. -/
theorem post_conflict_vs_query_error (cfg : CrudConfig) (b vdata : Json)
    (ins : InsertResult) (e : DbErr)
    (hv : cfg.createSchema b = .ok vdata)
    (herr : ins.error = some e) :
    (e.code = "23505" →
      POST cfg .ok (.ok b) ins =
        ([DbCall.insert cfg.tableName
            (match cfg.beforeInsert with | some f => f vdata | none => vdata)],
         ApiResponse.error .CONFLICT (cfg.resName ++ " already exists.") 409
           (.obj [("details", e.details)]))) ∧
    (e.code ≠ "23505" →
      POST cfg .ok (.ok b) ins =
        ([DbCall.insert cfg.tableName
            (match cfg.beforeInsert with | some f => f vdata | none => vdata)],
         ApiResponse.error .SUPABASE_QUERY_ERROR e.message 500 (.obj []))) ∧
    (∀ (m1 m2 : String) (d1 d2 : Json),
      ApiResponse.error .CONFLICT m1 409 d1 ≠
        ApiResponse.error .SUPABASE_QUERY_ERROR m2 500 d2) := by
  refine ⟨fun hc => ?_, fun hc => ?_, fun m1 m2 d1 d2 hne => ?_⟩
  · simp [POST, handleRequest, postHandler, hv, herr, hc]
  · simp [POST, handleRequest, postHandler, hv, herr, hc]
  · have h9 : (409 : Nat) = 500 := congrArg Response.status hne
    exact absurd h9 (by decide)

/-- Claim C4 witness: a duplicate-key insert on the course table yields the
409 CONFLICT envelope, and a permission fault yields the 500
SUPABASE_QUERY_ERROR envelope. -/
theorem post_conflict_vs_query_error_witness :
    POST courseConfig .ok (.ok (.obj [("name", .str "Algebra")]))
        { data := none,
          error := some { code := "23505", message := "duplicate key",
                          details := .str "Key (name) already exists." } } =
      ([DbCall.insert "course" (.obj [("name", .str "Algebra")])],
       ApiResponse.error .CONFLICT "course already exists." 409
         (.obj [("details", .str "Key (name) already exists.")])) ∧
    POST courseConfig .ok (.ok (.obj [("name", .str "Algebra")]))
        { data := none,
          error := some { code := "42501", message := "permission denied",
                          details := .null } } =
      ([DbCall.insert "course" (.obj [("name", .str "Algebra")])],
       ApiResponse.error .SUPABASE_QUERY_ERROR "permission denied" 500
         (.obj [])) :=
  ⟨(post_conflict_vs_query_error courseConfig (.obj [("name", .str "Algebra")])
      (.obj [("name", .str "Algebra")])
      { data := none,
        error := some { code := "23505", message := "duplicate key",
                        details := .str "Key (name) already exists." } }
      { code := "23505", message := "duplicate key",
        details := .str "Key (name) already exists." } rfl rfl).1 rfl,
   (post_conflict_vs_query_error courseConfig (.obj [("name", .str "Algebra")])
      (.obj [("name", .str "Algebra")])
      { data := none,
        error := some { code := "42501", message := "permission denied",
                        details := .null } }
      { code := "42501", message := "permission denied",
        details := .null } rfl rfl).2.1 (by decide)⟩

/-- Claim C6: a PUT whose backend update reports no error and no row yields
NOT_FOUND with HTTP 404 and a message naming the resource and the
identifier; a DELETE whose backend reports no error and an affected count
of zero likewise yields NOT_FOUND with HTTP 404. -/
theorem put_delete_not_found (cfg : CrudConfig) (bU : Json)
    (fields : List (String × Json)) (i : String) (upd : UpdateResult)
    (bD : Json) (s : String) (del : DeleteResult)
    (hvU : cfg.updateSchema bU = .ok fields)
    (hid : fields.lookup "id" = some (.str i))
    (hne : fields.filter (fun kv => kv.1 != "id") ≠ [])
    (hUerr : upd.error = none) (hUdata : upd.data = none)
    (hbD : getIdField bD = .ok (.str s)) (hs : s ≠ "")
    (hDerr : del.error = none) (hDcnt : del.count = some 0) :
    PUT cfg .ok (.ok bU) upd =
      ([DbCall.update cfg.tableName (fields.filter (fun kv => kv.1 != "id"))
          (.str i)],
       ApiResponse.error .NOT_FOUND
         (cfg.resName ++ " with ID " ++ i ++ " not found.") 404 (.obj [])) ∧
    DELETE cfg .ok (.ok bD) del =
      ([DbCall.delete cfg.tableName (.str s)],
       ApiResponse.error .NOT_FOUND
         (cfg.resName ++ " with ID " ++ s ++ " not found.") 404 (.obj [])) := by
  constructor
  · cases hl : fields.filter (fun kv => kv.1 != "id") with
    | nil => exact absurd hl hne
    | cons a l =>
      simp [PUT, handleRequest, putHandler, hvU, hid, hl, hUerr, hUdata,
        jsDisplay]
  · simp [DELETE, handleRequest, deleteHandler, hbD, hs, hDerr, hDcnt]

/-- Claim C6 witness: updating and deleting a missing course id both return
the 404 NOT_FOUND envelope naming the id. -/
theorem put_delete_not_found_witness :
    PUT courseConfig .ok
        (.ok (.obj [("id", .str "c9"), ("name", .str "Logic")]))
        { data := none, error := none } =
      ([DbCall.update "course" [("name", .str "Logic")] (.str "c9")],
       ApiResponse.error .NOT_FOUND "course with ID c9 not found." 404
         (.obj [])) ∧
    DELETE courseConfig .ok (.ok (.obj [("id", .str "c9")]))
        { error := none, count := some 0 } =
      ([DbCall.delete "course" (.str "c9")],
       ApiResponse.error .NOT_FOUND "course with ID c9 not found." 404
         (.obj [])) :=
  put_delete_not_found courseConfig _ [("id", .str "c9"), ("name", .str "Logic")]
    "c9" _ _ "c9" _ rfl rfl (fun h => List.noConfusion h) rfl rfl rfl
    (by decide) rfl rfl

/-- Claim C1: a GET with requested page `p` and pageSize `s` queries the
row range `from = (p-1)*s` to `to = from+s-1`, and on success reports
pagination metadata with `page = p`, `pageSize` = the number of rows the
backend returned, `total` = the backend count or 0 when absent, and
`totalPages = ceil(total / s)` over the requested pageSize. -/
theorem get_pagination (cfg : CrudConfig) (pageRaw pageSizeRaw : Option String)
    (db : JsNum → JsNum → SelectResult) (p s : Int)
    (hp : parsePageParam pageRaw "1" = .int p)
    (hs : parsePageParam pageSizeRaw "10" = .int s)
    (hspos : 0 < s)
    (herr : (db (.int ((p - 1) * s)) (.int ((p - 1) * s + s - 1))).error = none) :
    GET cfg .ok pageRaw pageSizeRaw db =
      ([DbCall.select cfg.tableName (cfg.selectQuery.getD "*")
          (.int ((p - 1) * s)) (.int ((p - 1) * s + s - 1))],
       ApiResponse.success
         (.arr (match cfg.afterGet with
            | some f =>
              f (db (.int ((p - 1) * s)) (.int ((p - 1) * s + s - 1))).data
            | none => (db (.int ((p - 1) * s)) (.int ((p - 1) * s + s - 1))).data))
         200 (some
         { page := .int p
           pageSize :=
             .int (db (.int ((p - 1) * s)) (.int ((p - 1) * s + s - 1))).data.length
           total :=
             .int ((db (.int ((p - 1) * s)) (.int ((p - 1) * s + s - 1))).count.getD 0)
           totalPages :=
             .int (Int.ceil
               ((((db (.int ((p - 1) * s)) (.int ((p - 1) * s + s - 1))).count.getD 0 : Int) : ℚ)
                 / (s : ℚ))) })) := by
  have hfrom : jsMul (jsSub (.int p) (.int 1)) (.int s) = .int ((p - 1) * s) := by
    simp [jsSub, jsAdd, jsNeg, jsMul, Int.sub_eq_add_neg]
  have hto : jsSub (jsAdd (.int ((p - 1) * s)) (.int s)) (.int 1) =
      .int ((p - 1) * s + s - 1) := by
    simp [jsSub, jsAdd, jsNeg, Int.sub_eq_add_neg]
  have hs0 : s ≠ 0 := by omega
  simp only [GET, handleRequest, getHandler, hp, hs, hfrom, hto, herr,
    mathCeilDiv, hs0, if_false, jsCeilDiv_eq_ceil _ s hspos]

/-- Claim C1 witness: page 2 of size 3 over a backend holding 7 rows
queries rows 3 to 5 and reports page 2, pageSize 1 (one row returned),
total 7, totalPages 3. -/
theorem get_pagination_witness :
    GET courseConfig .ok (some "2") (some "3") dbSeven =
      ([DbCall.select "course" "*" (.int 3) (.int 5)],
       ApiResponse.success (.arr [.obj [("id", .str "c1")]]) 200 (some
         { page := .int 2, pageSize := .int 1, total := .int 7,
           totalPages := .int 3 })) := by
  have h := get_pagination courseConfig (some "2") (some "3") dbSeven 2 3 rfl rfl
    (by decide) rfl
  rw [h]
  norm_num [courseConfig, dbSeven,
    show (⌈(7 : ℚ) / 3⌉ : Int) = 3 from by norm_num [Int.ceil_eq_iff]]

/-- Claim C7 counterexample: a non-numeric `page` value does not fall back
to the default 1; `parseInt("abc", 10)` is NaN, and the GET then queries a
NaN range. -/
theorem get_param_fallback_cex :
    parsePageParam (some "abc") "1" ≠ JsNum.int 1 ∧
    parsePageParam (some "abc") "1" = JsNum.nan ∧
    (GET courseConfig .ok (some "abc") (some "10") dbSeven).1 =
      [DbCall.select "course" "*" JsNum.nan JsNum.nan] :=
  ⟨by decide, by decide, rfl⟩

/-- Claim C7 (amended): a missing or empty `page`/`pageSize` parameter
falls back to the defaults 1 and 10; a non-numeric value parses to NaN,
not to the default; and no positivity validation is performed — the range
query is issued even for page 0 and pageSize -5. -/
theorem get_param_parsing :
    parsePageParam none "1" = JsNum.int 1 ∧
    parsePageParam none "10" = JsNum.int 10 ∧
    parsePageParam (some "") "1" = JsNum.int 1 ∧
    parsePageParam (some "") "10" = JsNum.int 10 ∧
    parsePageParam (some "abc") "1" = JsNum.nan ∧
    parsePageParam (some "abc") "10" = JsNum.nan ∧
    (∀ (cfg : CrudConfig) (db : JsNum → JsNum → SelectResult),
      (GET cfg .ok (some "0") (some "-5") db).1 =
        [DbCall.select cfg.tableName (cfg.selectQuery.getD "*")
          (.int 5) (.int (-1))]) := by
  refine ⟨by decide, by decide, by decide, by decide, by decide, by decide,
    fun cfg db => ?_⟩
  have h0 : parsePageParam (some "0") "1" = JsNum.int 0 := by decide
  have h5 : parsePageParam (some "-5") "10" = JsNum.int (-5) := by decide
  have hf : jsMul (jsSub (.int 0) (.int 1)) (.int (-5)) = JsNum.int 5 := by decide
  have ht : jsSub (jsAdd (.int 5) (.int (-5))) (.int 1) = JsNum.int (-1) := by
    decide
  cases herr : (db (.int 5) (.int (-1))).error <;>
    simp [GET, handleRequest, getHandler, h0, h5, hf, ht, herr]

/-- Every `ApiResponse.error` body has the failure envelope shape. -/
theorem isEnvelopeShape_error (c : ErrorCode) (m : String) (st : Nat)
    (d : Json) : isEnvelopeShape (ApiResponse.error c m st d).body = true := rfl

/-- Every `ApiResponse.success` body without pagination has the success
envelope shape. -/
theorem isEnvelopeShape_success_none (d : Json) (st : Nat) :
    isEnvelopeShape (ApiResponse.success d st none).body = true := rfl

/-- Every `ApiResponse.success` body with pagination has the success
envelope shape. -/
theorem isEnvelopeShape_success_some (d : Json) (st : Nat)
    (m : PaginationMeta) :
    isEnvelopeShape (ApiResponse.success d st (some m)).body = true := rfl

/-- The dispatcher preserves the envelope shape: its own failure envelopes
have it, and a returned handler response is passed through unchanged. -/
theorem handleRequest_shape (acq : AcquireResult) (h : HandlerOut)
    (H : ∀ calls r, h = .ret calls r → isEnvelopeShape r.body = true) :
    isEnvelopeShape (handleRequest acq h).2.body = true := by
  cases acq with
  | thrown m => exact isEnvelopeShape_error _ _ _ _
  | falsy => exact isEnvelopeShape_error _ _ _ _
  | ok =>
    cases h with
    | thrown calls m => exact isEnvelopeShape_error _ _ _ _
    | ret calls r => exact H calls r rfl

/-- Every response returned by the GET handler body has an envelope shape. -/
theorem getHandler_shape (cfg : CrudConfig) (pr psr : Option String)
    (db : JsNum → JsNum → SelectResult) :
    ∀ calls r, getHandler cfg pr psr db = .ret calls r →
      isEnvelopeShape r.body = true := by
  intro calls r h
  simp only [getHandler] at h
  split at h <;> (injection h with h1 h2; subst h2)
  · exact isEnvelopeShape_error _ _ _ _
  · exact isEnvelopeShape_success_some _ _ _

/-- Every response returned by the POST handler body has an envelope shape. -/
theorem postHandler_shape (cfg : CrudConfig) (body : Except String Json)
    (ins : InsertResult) :
    ∀ calls r, postHandler cfg body ins = .ret calls r →
      isEnvelopeShape r.body = true := by
  intro calls r h
  simp only [postHandler] at h
  split at h
  · exact absurd h (by simp)
  · split at h
    · injection h with h1 h2; subst h2
      exact isEnvelopeShape_error _ _ _ _
    · split at h
      · split at h <;> (injection h with h1 h2; subst h2) <;>
          exact isEnvelopeShape_error _ _ _ _
      · injection h with h1 h2; subst h2
        exact isEnvelopeShape_success_none _ _

/-- Every response returned by the PUT handler body has an envelope shape. -/
theorem putHandler_shape (cfg : CrudConfig) (body : Except String Json)
    (upd : UpdateResult) :
    ∀ calls r, putHandler cfg body upd = .ret calls r →
      isEnvelopeShape r.body = true := by
  intro calls r h
  simp only [putHandler] at h
  split at h
  · injection h with h1 h2; subst h2
    exact isEnvelopeShape_error _ _ _ _
  · split at h
    · injection h with h1 h2; subst h2
      exact isEnvelopeShape_error _ _ _ _
    · split at h
      · injection h with h1 h2; subst h2
        exact isEnvelopeShape_error _ _ _ _
      · split at h
        · injection h with h1 h2; subst h2
          exact isEnvelopeShape_error _ _ _ _
        · split at h
          · injection h with h1 h2; subst h2
            exact isEnvelopeShape_error _ _ _ _
          · injection h with h1 h2; subst h2
            exact isEnvelopeShape_success_none _ _

/-- Every response returned by the DELETE handler body has an envelope
shape. -/
theorem deleteHandler_shape (cfg : CrudConfig) (body : Except String Json)
    (del : DeleteResult) :
    ∀ calls r, deleteHandler cfg body del = .ret calls r →
      isEnvelopeShape r.body = true := by
  intro calls r h
  simp only [deleteHandler] at h
  split at h
  · exact absurd h (by simp)
  · split at h
    · exact absurd h (by simp)
    · split at h
      · split at h
        · injection h with h1 h2; subst h2
          exact isEnvelopeShape_error _ _ _ _
        · split at h
          · injection h with h1 h2; subst h2
            exact isEnvelopeShape_error _ _ _ _
          · split at h
            · injection h with h1 h2; subst h2
              exact isEnvelopeShape_error _ _ _ _
            · injection h with h1 h2; subst h2
              exact isEnvelopeShape_success_none _ _
      · injection h with h1 h2; subst h2
        exact isEnvelopeShape_error _ _ _ _

/-- Claim C8 counterexample: the root route's success body (built by
`successResponse`, with its extra `status` key) matches neither of the two
envelope shapes, and neither does a wrapper failure body whose `error` is
a bare string. -/
theorem envelope_shape_cex :
    isEnvelopeShape (rootGET (.ok ()) "2025-09-20T18:01:18.123Z").body = false ∧
    isEnvelopeShape (errorResponse (.str "Internal Server Error") 500).body
      = false :=
  ⟨rfl, rfl⟩

/-- Claim C8 (amended): every response of the four factory endpoints and
the university route has exactly one of the two envelope shapes, but the
root route builds its responses with the separate wrapper whose bodies
(an extra `status` field, and on failure a free-form `error` value) match
neither shape. -/
theorem envelope_shapes :
    (∀ (cfg : CrudConfig) (acq : AcquireResult) (pr psr : Option String)
       (db : JsNum → JsNum → SelectResult),
       isEnvelopeShape (GET cfg acq pr psr db).2.body = true) ∧
    (∀ (cfg : CrudConfig) (acq : AcquireResult) (body : Except String Json)
       (ins : InsertResult),
       isEnvelopeShape (POST cfg acq body ins).2.body = true) ∧
    (∀ (cfg : CrudConfig) (acq : AcquireResult) (body : Except String Json)
       (upd : UpdateResult),
       isEnvelopeShape (PUT cfg acq body upd).2.body = true) ∧
    (∀ (cfg : CrudConfig) (acq : AcquireResult) (body : Except String Json)
       (del : DeleteResult),
       isEnvelopeShape (DELETE cfg acq body del).2.body = true) ∧
    (∀ (acq : AcquireResult) (sel : Except String SelectResult),
       isEnvelopeShape (universityGET acq sel).body = true) ∧
    (∀ (acq : Except String Unit) (now : String),
       isEnvelopeShape (rootGET acq now).body = false) := by
  refine ⟨fun cfg acq pr psr db => ?_, fun cfg acq body ins => ?_,
    fun cfg acq body upd => ?_, fun cfg acq body del => ?_,
    fun acq sel => ?_, fun acq now => ?_⟩
  · exact handleRequest_shape acq _ (getHandler_shape cfg pr psr db)
  · exact handleRequest_shape acq _ (postHandler_shape cfg body ins)
  · exact handleRequest_shape acq _ (putHandler_shape cfg body upd)
  · exact handleRequest_shape acq _ (deleteHandler_shape cfg body del)
  · cases acq with
    | thrown m => exact isEnvelopeShape_error _ _ _ _
    | falsy => exact isEnvelopeShape_error _ _ _ _
    | ok =>
      cases sel with
      | error m => exact isEnvelopeShape_error _ _ _ _
      | ok r =>
        cases herr : r.error with
        | some e =>
          simp only [universityGET, herr]
          exact isEnvelopeShape_error _ _ _ _
        | none =>
          simp only [universityGET, herr]
          exact isEnvelopeShape_success_some _ _ _
  · cases acq with
    | error m => exact rfl
    | ok u => exact rfl

/-- Claim C9: the top-level route handlers outside the factory catch
faults locally and place the fault's own message text in the failure
response (the university route in the error envelope's message, the root
route as the wrapper's error value), in contrast to the dispatcher, which
substitutes the fixed generic message. -/
theorem toplevel_fault_leak (m : String) (hm : m ≠ "") :
    (∀ sel : Except String SelectResult,
      universityGET (.thrown m) sel =
        ApiResponse.error .INTERNAL_SERVER_ERROR m 500 (.obj [])) ∧
    universityGET .ok (.error m) =
      ApiResponse.error .INTERNAL_SERVER_ERROR m 500 (.obj []) ∧
    (∀ now : String, rootGET (.error m) now = errorResponse (.str m) 500) ∧
    (∀ h : HandlerOut, handleRequest (.thrown m) h =
      ([], ApiResponse.error .INTERNAL_SERVER_ERROR
        "An unexpected error occurred." 500 (.obj []))) := by
  refine ⟨fun sel => ?_, ?_, fun now => ?_, fun h => rfl⟩ <;>
    simp [universityGET, rootGET, jsOrStr, hm]

/-- Claim C9 witness: a fault with message "boom" surfaces verbatim in the
university route's envelope and in the root route's wrapper body. -/
theorem toplevel_fault_leak_witness :
    universityGET (.thrown "boom")
        (.ok { data := [], error := none, count := none }) =
      ApiResponse.error .INTERNAL_SERVER_ERROR "boom" 500 (.obj []) ∧
    rootGET (.error "boom") "2025-09-20T18:01:18.123Z" =
      errorResponse (.str "boom") 500 :=
  ⟨(toplevel_fault_leak "boom" (by decide)).1 _,
   (toplevel_fault_leak "boom" (by decide)).2.2.1 _⟩
